import Mathlib

/-!
Shallow embedding of `app/src/ui/toolbar/branch-dropdown.tsx` (the
`BranchDropdown` component): the display-state derivation performed by
`render`, the dropdown open/close gate `onDropDownStateChanged`, the
drag-hover handler `onMouseEnter`, the CI-status popover toggle
`togglePopover` / `closePopover`, and the popover renderer `renderPopover`.

Machine reals (`checkoutProgress.value`) are modelled as `Rat`; the
JavaScript `Math.round` as floor of `x + 1/2`.  The TypeScript string
enum `TipState` is modelled both as a closed inductive (`Tip`, matching
the type-level union) and, for the exhaustiveness/`assertNever` analysis,
as a raw record carrying an arbitrary `kind` string (`RawTip`).
-/

/-- Octicon symbols referenced by the component.  `syncClockwise` is the
spinning sync glyph imported from `../octicons`. -/
inductive Icon where
  | gitBranch
  | gitPullRequest
  | gitCommit
  | syncClockwise
deriving DecidableEq, Repr

/-- The fields of a branch object used by this component. -/
structure Branch where
  name : String
  upstreamWithoutRemote : Option String
  isDesktopForkRemoteBranch : Bool
deriving DecidableEq, Repr

/-- The fields of a pull request used by this component. -/
structure PullRequest where
  pullRequestNumber : Nat
deriving DecidableEq, Repr

/-- `ICheckoutProgress`: present only while a checkout is in flight. -/
structure CheckoutProgress where
  targetBranch : String
  value : Rat
deriving DecidableEq, Repr

/-- The `TipState` tagged union from `models/tip`: exactly the four
variants the component matches on. -/
inductive Tip where
  | unknown
  | unborn (ref : String)
  | detached (currentSha : String)
  | valid (branch : Branch)
deriving DecidableEq, Repr

/-- The conflict-state union from `lib/app-state`; only the rebase kind
carries the `targetBranch` the component reads. -/
inductive ConflictState where
  | merge
  | rebase (targetBranch : String)
  | cherryPick
deriving DecidableEq, Repr

/-- `isRebaseConflictState` from `lib/app-state`. -/
def isRebaseConflictState : ConflictState → Bool
  | ConflictState.rebase _ => true
  | _ => false

/-- `DropdownState` from `./dropdown` (the strings 'open' and 'closed';
`open` is a Lean keyword so the first constructor is named `opened`). -/
inductive DropdownState where
  | opened
  | closed
deriving DecidableEq, Repr

/-- `FoldoutType`; only the Branch foldout is used by this component. -/
inductive FoldoutType where
  | branch
deriving DecidableEq, Repr

/-- Observable side effects the component emits towards its
collaborators (`dragAndDropManager` and the dispatcher). -/
inductive Effect where
  | enterDragZone (zone : String)
  | showFoldout (t : FoldoutType)
  | closeFoldout (t : FoldoutType)
  | setShowCIStatusPopover (value : Bool)
deriving DecidableEq, Repr

/-- JavaScript `Math.round`: round half towards positive infinity. -/
def jsRound (q : Rat) : Int := Rat.floor (q + 1 / 2)

/-- The derived display tuple handed to `ToolbarDropdown`. -/
structure DisplayState where
  icon : Icon
  iconClassName : Option String
  title : String
  description : String
  tooltip : String
  canOpen : Bool
  disabled : Bool
  progressValue : Option Rat
deriving DecidableEq, Repr

/-- The props handed to `CICheckRunPopover` that depend on this
component's inputs. -/
structure PopoverProps where
  prNumber : Nat
  branchName : String
deriving DecidableEq, Repr

/-- What one `render` call produces: the display tuple plus the
optionally rendered CI-status popover.  `none` models `return null`. -/
structure RenderOutput where
  display : DisplayState
  ciPopover : Option PopoverProps
deriving DecidableEq, Repr

/-- `renderPopover` (lines 259-289): `null` when there is no current
pull request; otherwise the popover props, whose branch name is the
valid tip's `upstreamWithoutRemote ?? name` and the empty string for
every non-valid tip. -/
def renderPopover (currentPullRequest : Option PullRequest) (tip : Tip) :
    Option PopoverProps :=
  let currentBranchName :=
    match tip with
    | Tip.valid b => b.upstreamWithoutRemote.getD b.name
    | _ => ""
  match currentPullRequest with
  | none => none
  | some pr => some { prNumber := pr.pullRequestNumber, branchName := currentBranchName }

/-- `render` (lines 109-202): derives the display state from the tip,
the branch list, the current pull request, the checkout progress and the
conflict state.  `none` models the early `return null` on an `Unknown`
tip.  `darwin` is the `__DARWIN__` compile-time flag. -/
def render (darwin : Bool) (tip : Tip) (allBranches : List Branch)
    (currentPullRequest : Option PullRequest)
    (checkoutProgress : Option CheckoutProgress)
    (conflictState : Option ConflictState)
    (showCIStatusPopover : Bool) : Option RenderOutput :=
  let iconBase : Icon :=
    if currentPullRequest.isSome then Icon.gitPullRequest else Icon.gitBranch
  let descBase : String := if darwin then "Current Branch" else "Current branch"
  let base :=
    match tip with
    | Tip.unknown => none
    | Tip.unborn ref =>
        some (iconBase, ref, descBase, "Current branch is " ++ ref,
          allBranches.any fun b => !b.isDesktopForkRemoteBranch)
    | Tip.detached sha =>
        some (Icon.gitCommit, "On " ++ sha.take 7, "Detached HEAD",
          "Currently on a detached HEAD", true)
    | Tip.valid b =>
        some (iconBase, b.name, descBase, "Current branch is " ++ b.name, true)
  match base with
  | none => none
  | some (icon0, title0, description0, tooltip, canOpen0) =>
      let fields :=
        match checkoutProgress with
        | some cp =>
            let d : String :=
              if darwin then "Switching to Branch" else "Switching to branch"
            let d : String :=
              if cp.value > 0 then
                d ++ " (" ++ toString (jsRound (cp.value * 100)) ++ "%)"
              else d
            (Icon.syncClockwise, some "spin", cp.targetBranch, d,
              false, false, some cp.value)
        | none =>
            match conflictState with
            | some (ConflictState.rebase tb) =>
                (Icon.gitBranch, (none : Option String), tb, "Rebasing branch",
                  false, true, (none : Option Rat))
            | _ =>
                (icon0, (none : Option String), title0, description0,
                  canOpen0, false, (none : Option Rat))
      match fields with
      | (icon, iconClassName, title, description, canOpen, disabled, progressValue) =>
          some {
            display := {
              icon := icon
              iconClassName := iconClassName
              title := title
              description := description
              tooltip := tooltip
              canOpen := canOpen
              disabled := disabled
              progressValue := progressValue }
            ciPopover :=
              if showCIStatusPopover then renderPopover currentPullRequest tip
              else none }

/-- `currentState` (line 174): the dropdown state actually rendered. -/
def currentDropdownState (isOpen canOpen : Bool) : DropdownState :=
  if isOpen && canOpen then DropdownState.opened else DropdownState.closed

/-- `onDropDownStateChanged` (lines 100-107): `some s` means the request
is forwarded to the host's handler; `none` models the early `return`
(the request is dropped). -/
def onDropDownStateChanged (checkoutProgress : Option CheckoutProgress) :
    DropdownState → Option DropdownState
  | DropdownState.opened =>
      if checkoutProgress.isSome then none else some DropdownState.opened
  | DropdownState.closed => some DropdownState.closed

/-- `onMouseEnter` (lines 210-215): the effects emitted on pointer-enter,
given whether a commit drag is in progress
(`dragAndDropManager.isDragOfTypeInProgress(DragType.Commit)`). -/
def onMouseEnter (dragCommitInProgress : Bool) : List Effect :=
  if dragCommitInProgress then
    [Effect.enterDragZone "branch-button", Effect.showFoldout FoldoutType.branch]
  else []

/-- Modelled from the spec: the behaviour sections 4.3/4.5 claim for the
drag-hover path, namely that the open-intent travels "through the same
path as a manual toggle (subject to DropdownGate)", so that it is
suppressed whenever the gate rejects opens.  Used only to compare with
the source's `onMouseEnter`, which dispatches the foldout directly. -/
def onMouseEnterGatedSpec (dragCommitInProgress : Bool)
    (checkoutProgress : Option CheckoutProgress) : List Effect :=
  if dragCommitInProgress then
    Effect.enterDragZone "branch-button" ::
      (match onDropDownStateChanged checkoutProgress DropdownState.opened with
        | some _ => [Effect.showFoldout FoldoutType.branch]
        | none => [])
  else []

/-- `togglePopover` (lines 221-228): its emitted effects, given the
current `showCIStatusPopover` prop.  When open it calls `closePopover()`
with no event, which unconditionally requests the flag be cleared. -/
def togglePopover (showCIStatusPopover : Bool) : List Effect :=
  if showCIStatusPopover then
    [Effect.setShowCIStatusPopover false]
  else
    [Effect.closeFoldout FoldoutType.branch, Effect.setShowCIStatusPopover true]

/-- A pointer-event target: whether it is a DOM `Node`, and the ids of
the elements whose subtree contains it (itself included when the target
is that element).  `getElementById` resolves an id to at most one
element, so subtree membership is determined by these ids. -/
structure DomTarget where
  isNode : Bool
  ancestorIds : List String
deriving DecidableEq, Repr

/-- A `MouseEvent` as `closePopover` consumes it: just its target, which
may be `null`. -/
structure MouseEvt where
  target : Option DomTarget
deriving DecidableEq, Repr

/-- The document-level inputs of `closePopover`: whether
`getElementById` finds the 'pr-badge' and 'rerun-check-runs' elements. -/
structure CloseEnv where
  prBadgePresent : Bool
  rerunPresent : Bool
deriving DecidableEq, Repr

/-- `closePopover` (lines 238-257): returns `true` exactly when
`setShowCIStatusPopover(false)` is dispatched, i.e. when the popover is
closed. -/
def closePopover (env : CloseEnv) (event : Option MouseEvt) : Bool :=
  match event with
  | none => true
  | some e =>
      match e.target with
      | none => true
      | some t =>
          if t.isNode &&
              ((env.prBadgePresent && t.ancestorIds.contains "pr-badge") ||
                (env.rerunPresent && t.ancestorIds.contains "rerun-check-runs")) then
            false
          else true

/-- Modelled from the spec: "the event's target lies within the subtree"
of the element with the given id — an ancestor-containment test, defined
only when the element exists and the target is a DOM node. -/
def inSubtree (elemPresent : Bool) (elemId : String) (target : Option DomTarget) : Bool :=
  match target with
  | none => false
  | some t => t.isNode && elemPresent && t.ancestorIds.contains elemId

/-- The overlay-visibility pair of spec section 3: the branch-picker
foldout flag and the host's `showCIStatusPopover` flag. -/
structure OverlayVisibility where
  pickerOpen : Bool
  popoverOpen : Bool
deriving DecidableEq, Repr

/-- How the host applies one emitted effect to the visibility pair:
`showFoldout`/`closeFoldout` drive the picker, `setShowCIStatusPopover`
drives the popover, drag-zone notifications change nothing. -/
def applyEffect (s : OverlayVisibility) : Effect → OverlayVisibility
  | Effect.showFoldout FoldoutType.branch => { s with pickerOpen := true }
  | Effect.closeFoldout FoldoutType.branch => { s with pickerOpen := false }
  | Effect.setShowCIStatusPopover v => { s with popoverOpen := v }
  | Effect.enterDragZone _ => s

/-- Apply a list of effects in order. -/
def applyEffects (s : OverlayVisibility) (es : List Effect) : OverlayVisibility :=
  es.foldl applyEffect s

/-- The externally triggered operations of the component that touch the
two overlay surfaces, each carrying the environment it observes. -/
inductive Op where
  | dropdownRequest (checkoutProgress : Option CheckoutProgress) (s : DropdownState)
  | mouseEnter (dragCommitInProgress : Bool)
  | badgeClick
deriving Repr

/-- The effects an operation emits.  A forwarded dropdown request is
answered by the host opening or closing the branch foldout; a dropped
request emits nothing. -/
def opEffects (v : OverlayVisibility) : Op → List Effect
  | Op.dropdownRequest cp s =>
      match onDropDownStateChanged cp s with
      | some DropdownState.opened => [Effect.showFoldout FoldoutType.branch]
      | some DropdownState.closed => [Effect.closeFoldout FoldoutType.branch]
      | none => []
  | Op.mouseEnter d => onMouseEnter d
  | Op.badgeClick => togglePopover v.popoverOpen

/-- One step of the overlay-visibility transition system. -/
def step (v : OverlayVisibility) (op : Op) : OverlayVisibility :=
  applyEffects v (opEffects v op)

/-- Run a sequence of operations from a starting visibility state. -/
def run (v : OverlayVisibility) (ops : List Op) : OverlayVisibility :=
  ops.foldl step v

/-- The tip as it exists at runtime before the type-level union is
trusted: a record whose `kind` is an arbitrary string (the TypeScript
`TipState` enum is string-valued), with the payload fields the component
reads. -/
structure RawTip where
  kind : String
  ref : String
  currentSha : String
  branch : Branch
deriving DecidableEq, Repr

/-- The outcome of the tip classification chain (lines 129-148):
`suppress` is the early `return null` on an Unknown tip, `display` the
derived base fields, `unreachable` the `assertNever` call (which throws
a fatal error). -/
inductive TipOutcome where
  | suppress
  | display (icon : Icon) (title description tooltip : String) (canOpen : Bool)
  | unreachable (msg : String)
deriving DecidableEq, Repr

/-- Whether an outcome produced a display. -/
def TipOutcome.isDisplay : TipOutcome → Bool
  | TipOutcome.display _ _ _ _ _ => true
  | _ => false

/-- The classification chain of `render` (lines 125-148) over a raw tip:
the `if`/`else if` cascade on `tip.kind` with the `assertNever` default,
including the pull-request icon override that precedes it. -/
def classifyTip (hasPullRequest darwin : Bool) (t : RawTip)
    (allBranches : List Branch) : TipOutcome :=
  let icon : Icon := if hasPullRequest then Icon.gitPullRequest else Icon.gitBranch
  let description : String := if darwin then "Current Branch" else "Current branch"
  if t.kind = "Unknown" then TipOutcome.suppress
  else if t.kind = "Unborn" then
    TipOutcome.display icon t.ref description ("Current branch is " ++ t.ref)
      (allBranches.any fun b => !b.isDesktopForkRemoteBranch)
  else if t.kind = "Detached" then
    TipOutcome.display Icon.gitCommit ("On " ++ t.currentSha.take 7) "Detached HEAD"
      "Currently on a detached HEAD" true
  else if t.kind = "Valid" then
    TipOutcome.display icon t.branch.name description
      ("Current branch is " ++ t.branch.name) true
  else TipOutcome.unreachable ("Unknown tip state: " ++ t.kind)

/-- C1 counterexample: with a valid tip, no checkout in progress and a
rebase conflict present, the derived `canOpen` is false, yet the gate
forwards the open request to the host (it is not a no-op) — refuting
"the request is treated as a no-op ... if and only if the current
derived canOpen is false". -/
theorem dropdownGate_rebase_counterexample :
    (render false (Tip.valid ⟨"main", none, false⟩) [] none none
        (some (ConflictState.rebase "feature")) false).map
      (fun o => o.display.canOpen) = some false ∧
    onDropDownStateChanged none DropdownState.opened = some DropdownState.opened :=
  ⟨rfl, rfl⟩

/-- C1 (amended): the gate drops an open request exactly when a checkout
is in progress; close requests are always forwarded; independently, the
rendered dropdown state is closed whenever `canOpen` is false. -/
theorem dropdownGate_noop_iff_checkout (cp : Option CheckoutProgress)
    (s : DropdownState) (io : Bool) :
    (onDropDownStateChanged cp s = none ↔
      s = DropdownState.opened ∧ cp.isSome = true) ∧
    onDropDownStateChanged cp DropdownState.closed = some DropdownState.closed ∧
    currentDropdownState io false = DropdownState.closed := by
  cases s <;> cases cp <;> cases io <;>
    simp [onDropDownStateChanged, currentDropdownState]

/-- C2 counterexample: with a commit drag in progress and a checkout in
progress, `onMouseEnter` still emits the foldout open-intent, although
the dropdown gate rejects open requests in that state — refuting "an
open-intent ... is issued through the same gated path as a manual
toggle (subject to DropdownGate)". -/
theorem dragHover_bypasses_gate_counterexample :
    Effect.showFoldout FoldoutType.branch ∈ onMouseEnter true ∧
    onDropDownStateChanged (some ⟨"feature", 0⟩) DropdownState.opened = none ∧
    onMouseEnterGatedSpec true (some ⟨"feature", 0⟩) ≠ onMouseEnter true := by
  refine ⟨by decide, rfl, ?_⟩
  simp [onMouseEnter, onMouseEnterGatedSpec, onDropDownStateChanged]

/-- C2 (amended): on pointer-enter with a commit drag in progress the
control notifies the 'branch-button' drop zone and issues the foldout
open-intent directly to the dispatcher, unconditionally — it coincides
with the spec's gated path only when no checkout is in progress; with no
matching drag, nothing happens. -/
theorem dragHover_effects (cp : Option CheckoutProgress) :
    onMouseEnter false = [] ∧
    onMouseEnter true =
      [Effect.enterDragZone "branch-button",
        Effect.showFoldout FoldoutType.branch] ∧
    (onMouseEnterGatedSpec true cp = onMouseEnter true ↔ cp.isSome = false) := by
  cases cp <;>
    simp [onMouseEnter, onMouseEnterGatedSpec, onDropDownStateChanged]

/-- C3: whenever checkout progress is present — for every tip, pull
request and conflict state — the display shows the checkout target as
title, the switching description with a rounded whole-percent suffix
exactly when the value is positive, the spinning sync icon, `canOpen`
false, `disabled` at its base value false, and the checkout value as
progress; the conflict state does not affect any of these fields. -/
theorem checkout_overrides_display (darwin sh : Bool) (tip : Tip)
    (ab : List Branch) (pr : Option PullRequest)
    (conflict : Option ConflictState) (tb : String) (v : Rat) :
    (render darwin tip ab pr (some ⟨tb, v⟩) conflict sh).map
        (fun o => (o.display.title, o.display.description, o.display.icon,
          o.display.iconClassName, o.display.canOpen, o.display.disabled,
          o.display.progressValue))
      = (render darwin tip ab pr (some ⟨tb, v⟩) conflict sh).map
        (fun _ => (tb,
            (if v > 0 then
              (if darwin then "Switching to Branch" else "Switching to branch")
                ++ " (" ++ toString (jsRound (v * 100)) ++ "%)"
            else (if darwin then "Switching to Branch" else "Switching to branch")),
            Icon.syncClockwise, some "spin", false, false, some v)) := by
  cases tip <;> simp [render]

/-- C4: for every tip that renders at all, with no checkout in progress
a rebase conflict forces `canOpen` false and `disabled` true, the
conflict's target branch as title, the rebasing description, and the
branch glyph. -/
theorem rebase_conflict_display (darwin sh : Bool) (tip : Tip)
    (ab : List Branch) (pr : Option PullRequest) (tb : String) :
    (render darwin tip ab pr none (some (ConflictState.rebase tb)) sh).map
        (fun o => (o.display.canOpen, o.display.disabled, o.display.title,
          o.display.description, o.display.icon))
      = (render darwin tip ab pr none (some (ConflictState.rebase tb)) sh).map
        (fun _ => (false, true, tb, "Rebasing branch", Icon.gitBranch)) := by
  cases tip <;> simp [render]

/-- C5 counterexample: with a current pull request and a detached tip
(no checkout, no conflict) the displayed icon is the commit icon, not
the pull-request icon — refuting "the icon ... is the pull-request
icon, regardless of which tip variant matched". -/
theorem pr_icon_detached_counterexample :
    (render false (Tip.detached "abcdef1234567") [] (some ⟨42⟩) none none
        false).map (fun o => o.display.icon) = some Icon.gitCommit ∧
    Icon.gitCommit ≠ Icon.gitPullRequest :=
  ⟨rfl, by decide⟩

/-- C5 (amended): with no checkout and no conflict, a current pull
request makes the icon the pull-request icon for Unborn and Valid tips,
but a Detached tip overrides it with the commit icon. -/
theorem pr_icon_by_tip (darwin sh : Bool) (ab : List Branch)
    (p : PullRequest) (ref sha : String) (b : Branch) :
    (render darwin (Tip.unborn ref) ab (some p) none none sh).map
        (fun o => o.display.icon) = some Icon.gitPullRequest ∧
    (render darwin (Tip.valid b) ab (some p) none none sh).map
        (fun o => o.display.icon) = some Icon.gitPullRequest ∧
    (render darwin (Tip.detached sha) ab (some p) none none sh).map
        (fun o => o.display.icon) = some Icon.gitCommit := by
  refine ⟨?_, ?_, ?_⟩ <;> simp [render]

/-- C6: with no originating event the popover is always closed; with an
event, it is closed exactly when the target lies in neither the
'pr-badge' subtree nor the 'rerun-check-runs' subtree. -/
theorem closePopover_containment (env : CloseEnv) (e : MouseEvt) :
    closePopover env none = true ∧
    closePopover env (some e)
      = !(inSubtree env.prBadgePresent "pr-badge" e.target ||
          inSubtree env.rerunPresent "rerun-check-runs" e.target) := by
  obtain ⟨pb, rr⟩ := env
  obtain ⟨t⟩ := e
  cases t with
  | none => simp [closePopover, inSubtree]
  | some t =>
      obtain ⟨isN, anc⟩ := t
      cases isN <;> cases pb <;> cases rr <;>
        cases hc1 : anc.contains "pr-badge" <;>
        cases hc2 : anc.contains "rerun-check-runs" <;>
        simp [closePopover, inSubtree, hc1, hc2]

/-- C7: toggling the popover twice returns the visibility flag to its
original value; a toggle closes an open popover, and from a closed
popover it first requests the picker foldout closed and then opens the
popover. -/
theorem togglePopover_involutive (v : OverlayVisibility) (p : Bool) :
    (applyEffects (applyEffects v (togglePopover v.popoverOpen))
        (togglePopover (applyEffects v
          (togglePopover v.popoverOpen)).popoverOpen)).popoverOpen
      = v.popoverOpen ∧
    (applyEffects ⟨p, true⟩ (togglePopover true)).popoverOpen = false ∧
    applyEffects ⟨p, false⟩ (togglePopover false) = ⟨false, true⟩ ∧
    togglePopover false =
      [Effect.closeFoldout FoldoutType.branch,
        Effect.setShowCIStatusPopover true] := by
  obtain ⟨pk, po⟩ := v
  cases pk <;> cases po <;> cases p <;> decide

/-- C8 counterexample: from both overlays closed, a badge click opens
the popover and a subsequent drag-hover pointer-enter opens the picker
without closing the popover, reaching a state where both flags are true
— refuting "at most one of the two flags is true" in every reachable
state. -/
theorem overlay_exclusion_counterexample :
    run ⟨false, false⟩ [Op.badgeClick, Op.mouseEnter true] = ⟨true, true⟩ ∧
    (run ⟨false, false⟩ [Op.badgeClick, Op.mouseEnter true]).pickerOpen = true ∧
    (run ⟨false, false⟩ [Op.badgeClick, Op.mouseEnter true]).popoverOpen = true :=
  ⟨rfl, rfl, rfl⟩

/-- C8 (amended): the popover-opening path preserves exclusion (a badge
click never leaves both flags true), but opening the picker — whether by
drag-hover or by a forwarded dropdown open request — does not request
the popover closed, so both surfaces can be open at once. -/
theorem overlay_exclusion_partial (v : OverlayVisibility) :
    ((step v Op.badgeClick).pickerOpen &&
      (step v Op.badgeClick).popoverOpen) = false ∧
    step ⟨false, true⟩ (Op.mouseEnter true) = ⟨true, true⟩ ∧
    step ⟨false, true⟩ (Op.dropdownRequest none DropdownState.opened)
      = ⟨true, true⟩ := by
  obtain ⟨pk, po⟩ := v
  cases pk <;> cases po <;> decide

/-- C9: the classification chain is exhaustive over exactly the four
known kinds — 'Unknown' yields the defined suppress-rendering outcome
(not an error), the other three yield a display — and every kind
outside the four reaches the explicit unreachable-state failure, never a
default display. -/
theorem tip_classification_exhaustive (pr darwin : Bool) (t : RawTip)
    (ab : List Branch)
    (h : (t.kind == "Unknown" || t.kind == "Unborn" || t.kind == "Detached" ||
        t.kind == "Valid") = false) :
    classifyTip pr darwin { t with kind := "Unknown" } ab = TipOutcome.suppress ∧
    (classifyTip pr darwin { t with kind := "Unborn" } ab).isDisplay = true ∧
    (classifyTip pr darwin { t with kind := "Detached" } ab).isDisplay = true ∧
    (classifyTip pr darwin { t with kind := "Valid" } ab).isDisplay = true ∧
    classifyTip pr darwin t ab
      = TipOutcome.unreachable ("Unknown tip state: " ++ t.kind) := by
  simp only [Bool.or_eq_false_iff, beq_eq_false_iff_ne, ne_eq] at h
  obtain ⟨⟨⟨h1, h2⟩, h3⟩, h4⟩ := h
  refine ⟨rfl, rfl, rfl, rfl, ?_⟩
  simp [classifyTip, h1, h2, h3, h4]

/-- C9 witness: the theorem applied at the concrete raw tip with kind
'Bogus'. -/
theorem tip_classification_exhaustive_witness :
    classifyTip false false ⟨"Unknown", "", "", ⟨"", none, false⟩⟩ []
      = TipOutcome.suppress ∧
    (classifyTip false false ⟨"Unborn", "", "", ⟨"", none, false⟩⟩ []).isDisplay
      = true ∧
    (classifyTip false false ⟨"Detached", "", "", ⟨"", none, false⟩⟩ []).isDisplay
      = true ∧
    (classifyTip false false ⟨"Valid", "", "", ⟨"", none, false⟩⟩ []).isDisplay
      = true ∧
    classifyTip false false ⟨"Bogus", "", "", ⟨"", none, false⟩⟩ []
      = TipOutcome.unreachable ("Unknown tip state: " ++ "Bogus") :=
  tip_classification_exhaustive false false ⟨"Bogus", "", "", ⟨"", none, false⟩⟩
    [] (by decide)

/-- C10: with no current pull request the rendered CI popover is absent
even when the show flag is true; with the flag false it is absent; and
when rendered its branch name is the valid tip's upstreamWithoutRemote
name, falling back to the branch name, and the empty string for every
non-valid tip. -/
theorem ci_popover_rendering (darwin sh : Bool) (tip : Tip)
    (ab : List Branch) (checkout : Option CheckoutProgress)
    (conflict : Option ConflictState) (p : PullRequest) :
    ((render darwin tip ab none checkout conflict sh).map (fun o => o.ciPopover)
        = (render darwin tip ab none checkout conflict sh).map (fun _ => none)) ∧
    ((render darwin tip ab (some p) checkout conflict false).map
          (fun o => o.ciPopover)
        = (render darwin tip ab (some p) checkout conflict false).map
          (fun _ => none)) ∧
    ((render darwin tip ab (some p) checkout conflict true).map
          (fun o => o.ciPopover)
        = (render darwin tip ab (some p) checkout conflict true).map
          (fun _ => some { prNumber := p.pullRequestNumber,
                           branchName := match tip with
                             | Tip.valid b => b.upstreamWithoutRemote.getD b.name
                             | _ => "" })) := by
  cases tip <;> cases checkout <;> rcases conflict with _ | c <;>
    simp [render, renderPopover]
